import Mathlib

/-!
Verification of the Athena trading control-plane core against its source.

The development shallowly embeds the Python services under `src/`:
* `src/services/risk-engine/main.py` — mandate monitoring
  (`check_mandate_breaches`) and the kill switch (`execute_kill_switch`);
* `src/services/execution-gateway/main.py` — order submission (`send_order`),
  cancellation (`cancel_order`) and the fill simulator
  (`simulate_order_execution`).

Numeric SQL/Python values are modelled as rationals, nullable columns as
`Option`, and database tables as lists of rows.  Python truthiness of a
nullable numeric value (`x if x else d`) is modelled explicitly since the
source relies on it (a stored limit of `0` parses to `None`).
-/

namespace Athena

/-- Truthiness of a nullable numeric value: Python treats both `None` and `0`
as falsy. -/
def pyTruthy (x : Option ℚ) : Bool :=
  match x with
  | none => false
  | some v => decide (v ≠ 0)

/-- Embeds `float(x) if x else 0` applied to a nullable numeric column. -/
def pyFloatOrZero (x : Option ℚ) : ℚ :=
  if pyTruthy x then x.getD 0 else 0

/-- Embeds `float(x) if x else None` applied to a nullable numeric column. -/
def pyFloatOrNone (x : Option ℚ) : Option ℚ :=
  if pyTruthy x then x else none

/-- Embeds the Python expression `a or b` for a nullable numeric `a`. -/
def pyOr (x : Option ℚ) (d : ℚ) : ℚ :=
  if pyTruthy x then x.getD 0 else d

/-- Python `abs` on a numeric value. -/
def pyabs (x : ℚ) : ℚ :=
  if x < 0 then -x else x

end Athena

namespace RiskEngine

open Athena

/-- Row of the `risk_mandates` table as read by `check_mandate_breaches`
(`src/services/risk-engine/main.py`).  `code` is the human-readable
`mandate_id` column; `id` is the primary key. -/
structure Mandate where
  id : Nat
  code : String
  description : String
  soft_limit : Option ℚ
  hard_limit : Option ℚ
  current_value : Option ℚ
  status : String
  is_active : Bool
deriving Repr, DecidableEq

/-- Alert record built by `check_mandate_breaches` (lines 136-147): the alert
stores the parsed current value and the limit that was compared against. -/
structure Alert where
  mandate_pk : Nat
  severity : String
  message : String
  current_value : ℚ
  limit : Option ℚ
deriving Repr, DecidableEq

/-- Embeds the guard `if lim and abs(current) >= abs(lim)` from lines 122 and
125 of `src/services/risk-engine/main.py`: the parsed limit must be truthy
(non-`None` and nonzero) and the absolute current value must reach the
absolute limit. -/
def limitBreached (cur : ℚ) (lim : Option ℚ) : Bool :=
  pyTruthy lim && decide (pyabs cur ≥ pyabs (lim.getD 0))

/-- Embeds lines 119-127 of `src/services/risk-engine/main.py`: the status and
alert severity computed from the parsed current value and limits, with hard
limit taking priority over soft limit. -/
def newStatus (cur : ℚ) (hard soft : Option ℚ) : String × Option String :=
  if limitBreached cur hard then ("BREACH", some "CRITICAL")
  else if limitBreached cur soft then ("WARNING", some "WARNING")
  else ("OK", none)

/-- Status/severity computed from the raw (nullable) column values, composing
the parsing on lines 115-117 with the comparison on lines 119-127. -/
def mandate_eval (curRaw hardRaw softRaw : Option ℚ) : String × Option String :=
  newStatus (pyFloatOrZero curRaw) (pyFloatOrNone hardRaw) (pyFloatOrNone softRaw)

/-- Result of processing one mandate in `check_mandate_breaches`: the
(possibly updated) row, the alert created (if any), and whether a status
`UPDATE` was issued. -/
structure CheckResult where
  mandate : Mandate
  alert : Option Alert
  wrote : Bool
deriving Repr, DecidableEq

/-- Embeds the loop body of `check_mandate_breaches` (lines 114-163 of
`src/services/risk-engine/main.py`) for a single mandate row: parse the
values, compute the new status, and only when it differs from the persisted
status write the row and (when a severity was assigned) create an alert. -/
def checkMandate (m : Mandate) : CheckResult :=
  let cur := pyFloatOrZero m.current_value
  let hard := pyFloatOrNone m.hard_limit
  let soft := pyFloatOrNone m.soft_limit
  let ns := (newStatus cur hard soft).1
  let sev := (newStatus cur hard soft).2
  if m.status ≠ ns then
    let m2 := { m with status := ns }
    match sev with
    | some s =>
        ⟨m2,
         some { mandate_pk := m.id, severity := s,
                message := "Mandate " ++ m.code ++ ": " ++ m.description ++ " - " ++ ns,
                current_value := cur,
                limit := if ns = "BREACH" then hard else soft },
         true⟩
    | none => ⟨m2, none, true⟩
  else ⟨m, none, false⟩

/-- Embeds one full pass of `check_mandate_breaches` over the table: the
query selects only active mandates, so inactive rows pass through untouched. -/
def check_mandate_breaches (ms : List Mandate) : List Mandate × List Alert :=
  ms.foldr
    (fun m acc =>
      if m.is_active then
        let r := checkMandate m
        (r.mandate :: acc.1, r.alert.toList ++ acc.2)
      else (m :: acc.1, acc.2))
    ([], [])

/-- Status that a re-evaluation of mandate `m` computes from its current
value and limits (the `new_status` local of the loop body). -/
def computedStatus (m : Mandate) : String :=
  (newStatus (pyFloatOrZero m.current_value) (pyFloatOrNone m.hard_limit)
    (pyFloatOrNone m.soft_limit)).1

/-- Iterates the per-mandate evaluation `n` times (the monitor loop
re-evaluating the same mandate with unchanged value and limits) and counts
the alerts emitted in total. -/
def iterCheck : Nat → Mandate → Mandate × Nat
  | 0, m => (m, 0)
  | n + 1, m =>
    let r := checkMandate m
    let rest := iterCheck n r.mandate
    (rest.1, (if r.alert.isSome then 1 else 0) + rest.2)

/-- Predicate used to state the spec's phrase "the limit is set and breached":
in the source a limit takes part in the comparison only when it is truthy
(present and nonzero), and a breach means `|current| ≥ |limit|`. -/
def limitSetAndBreached (cur : ℚ) : Option ℚ → Prop
  | some l => l ≠ 0 ∧ |cur| ≥ |l|
  | none => False

instance (cur : ℚ) : (lim : Option ℚ) → Decidable (limitSetAndBreached cur lim)
  | some l => inferInstanceAs (Decidable (l ≠ 0 ∧ |cur| ≥ |l|))
  | none => inferInstanceAs (Decidable False)

end RiskEngine

namespace ExecutionGateway

open Athena

/-- Row of the `orders` table as created and mutated by
`src/services/execution-gateway/main.py`. -/
structure Order where
  id : Nat
  strategy_id : Option Nat
  symbol : String
  side : String
  order_type : String
  quantity : ℚ
  price : Option ℚ
  stop_price : Option ℚ
  filled_quantity : ℚ
  average_fill_price : Option ℚ
  status : String
deriving Repr, DecidableEq

/-- Row of the `positions` table (`id` is the primary key used in the
position `UPDATE` of the fill simulator). -/
structure Position where
  id : Nat
  strategy_id : Option Nat
  symbol : String
  quantity : ℚ
  average_entry_price : ℚ
  current_price : ℚ
deriving Repr, DecidableEq

/-- Request body of `POST /orders/send` (`OrderCreate` in
`src/shared/common/models.py`). -/
structure OrderCreate where
  strategy_id : Option Nat
  symbol : String
  side : String
  order_type : String
  quantity : ℚ
  price : Option ℚ
  stop_price : Option ℚ
deriving Repr, DecidableEq

/-- Rejections raised by `send_order` (lines 172-214 of
`src/services/execution-gateway/main.py`): the 403 for viewers, the 403 when
the kill switch is active, and the 400 for an unknown symbol. -/
inductive SendError where
  | Forbidden
  | HaltActive
  | UnknownSymbol
deriving Repr, DecidableEq

/-- Embeds `send_order` (lines 172-239 of
`src/services/execution-gateway/main.py`).  Inputs: the caller's role, the
parsed `kill_switch_active` system-state value (`None` when the row is
absent), the reference price found in Redis for the requested symbol
(`None` when the symbol is unknown), the request, the id the database would
assign, and the current `orders` table.  The checks run in source order:
viewer role, then kill switch, then symbol; only then is the order row
inserted with status `PENDING`. -/
def send_order (role : String) (kill_switch : Option Bool) (refPrice : Option ℚ)
    (req : OrderCreate) (nextId : Nat) (orders : List Order) :
    Except SendError Order × List Order :=
  if role = "VIEWER" then (Except.error SendError.Forbidden, orders)
  else if kill_switch.getD false then (Except.error SendError.HaltActive, orders)
  else
    match refPrice with
    | none => (Except.error SendError.UnknownSymbol, orders)
    | some lastPrice =>
      let o : Order :=
        { id := nextId, strategy_id := req.strategy_id, symbol := req.symbol,
          side := req.side, order_type := req.order_type, quantity := req.quantity,
          price := some (pyOr req.price lastPrice), stop_price := req.stop_price,
          filled_quantity := 0, average_fill_price := none, status := "PENDING" }
      (Except.ok o, orders ++ [o])

/-- Rejections raised by `cancel_order` (lines 285-318): the 403 for viewers,
the 404 for a missing order, and the 400 `Cannot cancel order with status: s`
raised when the order is already terminal. -/
inductive CancelError where
  | Forbidden
  | NotFound
  | InvalidStatus (s : String)
deriving Repr, DecidableEq

/-- Embeds `cancel_order` (lines 285-318 of
`src/services/execution-gateway/main.py`).  On success it returns the
previous status and rewrites the row to `CANCELLED`; an order whose status is
`FILLED`, `CANCELLED` or `REJECTED` is rejected with the 400 error and the
table is left untouched. -/
def cancel_order (role : String) (orders : List Order) (oid : Nat) :
    Except CancelError (Nat × String) × List Order :=
  if role = "VIEWER" then (Except.error CancelError.Forbidden, orders)
  else
    match orders.find? (fun o => o.id == oid) with
    | none => (Except.error CancelError.NotFound, orders)
    | some o =>
      if o.status = "FILLED" ∨ o.status = "CANCELLED" ∨ o.status = "REJECTED" then
        (Except.error (CancelError.InvalidStatus o.status), orders)
      else
        (Except.ok (oid, o.status),
         orders.map (fun x => if x.id == oid then { x with status := "CANCELLED" } else x))

/-- Statuses selected by the fill simulator's query
(`status IN ('PENDING', 'OPEN', 'PARTIAL')`). -/
def isOpenStatus (s : String) : Bool :=
  s == "PENDING" || s == "OPEN" || s == "PARTIAL"

/-- Support of Python's `random.uniform(a, b)`: the sampled value lies
between the two bounds. -/
def uniformSample (a b q : ℚ) : Prop := a ≤ q ∧ q ≤ b

/-- Embeds the per-order body of `simulate_order_execution` (lines 76-107 of
`src/services/execution-gateway/main.py`) acting on the order row: a sampled
fill quantity is applied only when positive, adding it to the filled
quantity, recording the fill price, and recomputing the status
(`FILLED` when filled reaches requested, else `PARTIAL`).  Returns the
updated row and the `fills` row inserted (if any). -/
def simulate_order_execution_step (o : Order) (fillQty fillPrice : ℚ) :
    Order × Option (ℚ × ℚ) :=
  if 0 < fillQty then
    let newFilled := o.filled_quantity + fillQty
    ({ o with filled_quantity := newFilled,
              average_fill_price := some fillPrice,
              status := if newFilled ≥ o.quantity then "FILLED" else "PARTIAL" },
     some (fillQty, fillPrice))
  else (o, none)

/-- SQL equality on a nullable `strategy_id` column: `strategy_id = $2`
compares two values, and a comparison involving `NULL` is never true in
PostgreSQL — `NULL = NULL` does not match.  Only two non-`NULL`, equal
values match. -/
def sqlEq (a b : Option Nat) : Bool :=
  match a, b with
  | some x, some y => x == y
  | _, _ => false

/-- Predicate used by the simulator to locate the position row of a
(strategy, symbol) pair (`SELECT * FROM positions WHERE symbol = $1 AND
strategy_id = $2`).  The `strategy_id` comparison follows SQL `NULL`
semantics: a `NULL` parameter (or a `NULL` stored value) never matches. -/
def keyMatch (sid : Option Nat) (sym : String) (p : Position) : Bool :=
  p.symbol == sym && sqlEq p.strategy_id sid

/-- Largest position id in the table. -/
def maxId (ps : List Position) : Nat :=
  ps.foldr (fun p acc => max p.id acc) 0

/-- Fresh primary key for an inserted position row. -/
def freshId (ps : List Position) : Nat := maxId ps + 1

/-- Embeds the position branch of `simulate_order_execution` (lines 109-133):
locate the (strategy, symbol) position; when it exists, update the located
row (by primary key) adding the signed quantity delta and refreshing the
current price — the stored `average_entry_price` is not touched; when it
does not exist, insert a new row whose quantity is the signed delta and whose
entry and current price are the fill price.  Because the lookup uses SQL
equality, an order with `NULL` `strategy_id` never matches an existing row,
so every fill of a strategy-less order takes the insert branch. -/
def update_position (ps : List Position) (sid : Option Nat) (sym : String)
    (side : String) (fillQty fillPrice : ℚ) : List Position :=
  let qtyChange := if side = "BUY" then fillQty else -fillQty
  match ps.find? (keyMatch sid sym) with
  | some p =>
      ps.map (fun x => if x.id == p.id then
        { x with quantity := x.quantity + qtyChange, current_price := fillPrice } else x)
  | none =>
      ps ++ [{ id := freshId ps, strategy_id := sid, symbol := sym,
               quantity := qtyChange, average_entry_price := fillPrice,
               current_price := fillPrice }]

/-- Fill event as it reaches the position branch: owning strategy and symbol
of the parent order, the order side, the sampled quantity and the fill
price. -/
structure FillEvent where
  strategy_id : Option Nat
  symbol : String
  side : String
  quantity : ℚ
  price : ℚ
deriving Repr, DecidableEq

/-- Applies one fill event to the positions table. -/
def apply_fill (ps : List Position) (f : FillEvent) : List Position :=
  update_position ps f.strategy_id f.symbol f.side f.quantity f.price

/-- Applies a sequence of fill events in order. -/
def apply_fills (ps : List Position) (fs : List FillEvent) : List Position :=
  fs.foldl apply_fill ps

/-- Signed quantity of a fill: `+qty` for BUY, `-qty` for SELL. -/
def signedQty (f : FillEvent) : ℚ :=
  if f.side = "BUY" then f.quantity else -f.quantity

/-- Signed sum of a list of fills. -/
def signedSum (fs : List FillEvent) : ℚ :=
  (fs.map signedQty).sum

/-- Quantity held by the (strategy, symbol) position, `0` when no row
exists. -/
def qtyOf (ps : List Position) (sid : Option Nat) (sym : String) : ℚ :=
  match ps.find? (keyMatch sid sym) with
  | some p => p.quantity
  | none => 0

/-- Stored average entry price of the (strategy, symbol) position. -/
def entryOf (ps : List Position) (sid : Option Nat) (sym : String) : Option ℚ :=
  (ps.find? (keyMatch sid sym)).map Position.average_entry_price

/-- Primary keys of the positions table are pairwise distinct. -/
def IdsNodup (ps : List Position) : Prop :=
  ps.Pairwise (fun a b => a.id ≠ b.id)

/-- Order-level invariant claimed by the spec: `0 ≤ filled ≤ requested` and
`status = FILLED` exactly when the order is completely filled. -/
def OrderInv (o : Order) : Prop :=
  0 ≤ o.filled_quantity ∧ o.filled_quantity ≤ o.quantity ∧
    (o.status = "FILLED" ↔ o.filled_quantity = o.quantity)

instance (o : Order) : Decidable (OrderInv o) :=
  inferInstanceAs (Decidable (0 ≤ o.filled_quantity ∧ o.filled_quantity ≤ o.quantity ∧
    (o.status = "FILLED" ↔ o.filled_quantity = o.quantity)))

end ExecutionGateway

namespace RiskEngine

/-- Row of the `strategies` table as touched by the kill switch. -/
structure Strategy where
  id : Nat
  status : String
deriving Repr, DecidableEq

/-- Database state visible to `execute_kill_switch`
(`src/services/risk-engine/main.py`, lines 308-435) plus the observable
notification side effects: the audit rows inserted, the WebSocket broadcast
types, and the Redis messages published. -/
structure SystemState where
  orders : List ExecutionGateway.Order
  positions : List ExecutionGateway.Position
  strategies : List Strategy
  kill_switch_active : Option Bool
  system_status : String
  audit_log : List String
  ws_alerts : List String
  redis_published : List String
deriving Repr, DecidableEq

/-- Step 1 of the kill switch (lines 345-352): `UPDATE orders SET status =
'CANCELLED' WHERE status IN ('PENDING', 'OPEN')`. -/
def cancel_open_orders (st : SystemState) : SystemState :=
  { st with orders := st.orders.map (fun o =>
      if o.status == "PENDING" || o.status == "OPEN" then
        { o with status := "CANCELLED" } else o) }

/-- Step 2 (lines 354-361): `UPDATE positions SET quantity = 0` (all rows). -/
def close_positions (st : SystemState) : SystemState :=
  { st with positions := st.positions.map (fun p => { p with quantity := 0 }) }

/-- Step 3 (lines 363-370): `UPDATE strategies SET status = 'HALTED' WHERE
status = 'ACTIVE'`. -/
def halt_strategies (st : SystemState) : SystemState :=
  { st with strategies := st.strategies.map (fun s =>
      if s.status == "ACTIVE" then { s with status := "HALTED" } else s) }

/-- Step 4 (lines 372-379): set the `kill_switch_active` system-state row to
`true`. -/
def set_kill_flag (st : SystemState) : SystemState :=
  { st with kill_switch_active := some true }

/-- Step 5 (lines 381-387): set the `system_status` row to `EMERGENCY`. -/
def set_emergency (st : SystemState) : SystemState :=
  { st with system_status := "EMERGENCY" }

/-- Step 6 (lines 396-400): insert the `KILL_SWITCH_EXECUTE` audit row. -/
def write_audit (st : SystemState) : SystemState :=
  { st with audit_log := st.audit_log ++ ["KILL_SWITCH_EXECUTE"] }

/-- Step 7 (lines 402-415): broadcast the `KILL_SWITCH` alert on the
WebSocket channel. -/
def broadcast_ws (st : SystemState) : SystemState :=
  { st with ws_alerts := st.ws_alerts ++ ["KILL_SWITCH"] }

/-- Step 8 (lines 417-423): publish the `KILL_SWITCH` message on Redis. -/
def publish_redis (st : SystemState) : SystemState :=
  { st with redis_published := st.redis_published ++ ["KILL_SWITCH"] }

/-- The statements executed inside the `try` block, in source order.  Each
`db.execute` acquires its own connection and commits on its own — there is no
enclosing transaction in the source. -/
def kill_switch_steps : List (SystemState → SystemState) :=
  [cancel_open_orders, close_positions, halt_strategies, set_kill_flag,
   set_emergency, write_audit, broadcast_ws, publish_redis]

/-- Runs the step list sequentially; `failAt = some k` injects an exception
at (0-based) step `k`, so the first `k` statements have already committed
when the `except` branch fires, exactly as with per-statement commits. -/
def run_steps : List (SystemState → SystemState) → Option Nat → SystemState →
    Bool × SystemState
  | [], _, st => (true, st)
  | _ :: _, some 0, st => (false, st)
  | f :: rest, some (k + 1), st => run_steps rest (some k) (f st)
  | f :: rest, none, st => run_steps rest none (f st)

/-- Outcome of `execute_kill_switch`: the 400 `NotConfirmed` rejection, the
500 raised from the `except` branch, or the success response with the
pre-computed counts. -/
inductive KSOutcome where
  | notConfirmed
  | failed
  | ok (orders_cancelled : Nat) (positions_closed : Nat)
deriving Repr, DecidableEq

/-- Count used for the response: orders with status `PENDING` or `OPEN`
(line 335). -/
def openOrderCount (st : SystemState) : Nat :=
  (st.orders.filter (fun o => o.status == "PENDING" || o.status == "OPEN")).length

/-- Count used for the response: positions with nonzero quantity
(lines 355-357). -/
def nonzeroPositionCount (st : SystemState) : Nat :=
  (st.positions.filter (fun p => decide (p.quantity ≠ 0))).length

/-- Embeds `execute_kill_switch` (lines 308-435 of
`src/services/risk-engine/main.py`).  Without confirmation the 400 is raised
before anything is read or written.  With confirmation the statements run in
order; an injected failure at step `k` leaves the first `k` statements
committed and reports failure (HTTP 500), since nothing rolls them back. -/
def execute_kill_switch (confirm : Bool) (failAt : Option Nat) (st : SystemState) :
    KSOutcome × SystemState :=
  if confirm then
    let r := run_steps kill_switch_steps failAt st
    if r.1 then (KSOutcome.ok (openOrderCount st) (nonzeroPositionCount st), r.2)
    else (KSOutcome.failed, r.2)
  else (KSOutcome.notConfirmed, st)

end RiskEngine

namespace Examples

/-- Active mandate whose re-evaluation computes `BREACH`, equal to its
persisted status. -/
def mSame : RiskEngine.Mandate :=
  ⟨1, "M-VAR", "VaR limit", some 100, some 150, some 160, "BREACH", true⟩

/-- Active mandate whose persisted status is `WARNING` but whose current
value has dropped back below the soft limit. -/
def mDrop : RiskEngine.Mandate :=
  ⟨2, "M-LEV", "Leverage", some 100, some 150, some 90, "WARNING", true⟩

/-- Market-order request for 100 shares of AAPL. -/
def reqBuy : ExecutionGateway.OrderCreate :=
  ⟨some 1, "AAPL", "BUY", "MARKET", 100, none, none⟩

/-- Fresh order as `send_order` inserts it for `reqBuy` at reference price
50. -/
def oPending : ExecutionGateway.Order :=
  ⟨1, some 1, "AAPL", "BUY", "MARKET", 100, some 50, none, 0, none, "PENDING"⟩

/-- Order filled for 60 of its 100 requested shares. -/
def oHalfFilled : ExecutionGateway.Order :=
  ⟨2, some 1, "AAPL", "BUY", "MARKET", 100, some 50, none, 60, some 50, "PARTIAL"⟩

/-- Order that has already been cancelled. -/
def oDone : ExecutionGateway.Order :=
  ⟨7, some 1, "AAPL", "BUY", "MARKET", 100, some 50, none, 0, none, "CANCELLED"⟩

/-- Long position of one share at entry price 100. -/
def posOne : ExecutionGateway.Position :=
  ⟨1, some 1, "AAPL", 1, 100, 100⟩

/-- BUY fill of one share at price 200 for the same (strategy, symbol). -/
def fillBuy : ExecutionGateway.FillEvent :=
  ⟨some 1, "AAPL", "BUY", 1, 200⟩

/-- BUY fill of one share at price 100 for an order with no owning strategy
(`NULL` `strategy_id`). -/
def fillNull : ExecutionGateway.FillEvent :=
  ⟨none, "AAPL", "BUY", 1, 100⟩

/-- System state with one `PENDING` order, one `PARTIAL` order, a nonzero
position and an active strategy; halt flag unset. -/
def stEx : RiskEngine.SystemState :=
  ⟨[oPending, oHalfFilled], [posOne], [⟨1, "ACTIVE"⟩], some false, "NORMAL",
   [], [], []⟩

end Examples

/-! ## Theorems -/

namespace Athena

theorem pyabs_eq_abs (x : ℚ) : pyabs x = |x| := by
  unfold pyabs
  rcases lt_or_ge x 0 with h | h
  · rw [if_pos h, abs_of_neg h]
  · rw [if_neg (not_lt.mpr h), abs_of_nonneg h]

end Athena

namespace RiskEngine

open Athena

theorem newStatus_cases (c : ℚ) (hd sf : Option ℚ) :
    newStatus c hd sf = ("BREACH", some "CRITICAL") ∨
    newStatus c hd sf = ("WARNING", some "WARNING") ∨
    newStatus c hd sf = ("OK", none) := by
  unfold newStatus
  split
  · exact Or.inl rfl
  · split
    · exact Or.inr (Or.inl rfl)
    · exact Or.inr (Or.inr rfl)

theorem newStatus_snd_of_ok (c : ℚ) (hd sf : Option ℚ)
    (h : (newStatus c hd sf).1 = "OK") : (newStatus c hd sf).2 = none := by
  rcases newStatus_cases c hd sf with hc | hc | hc <;> rw [hc] at h ⊢
  · exact absurd h (by decide)
  · exact absurd h (by decide)

theorem checkMandate_of_eq (m : Mandate) (h : computedStatus m = m.status) :
    checkMandate m = ⟨m, none, false⟩ := by
  have h' : (newStatus (pyFloatOrZero m.current_value) (pyFloatOrNone m.hard_limit)
      (pyFloatOrNone m.soft_limit)).1 = m.status := h
  unfold checkMandate
  simp [h']

theorem checkMandate_mandate (m : Mandate) :
    (checkMandate m).mandate = { m with status := computedStatus m } := by
  unfold checkMandate
  dsimp only
  split
  · split <;> rfl
  · rename_i h
    rw [not_ne_iff] at h
    rw [show computedStatus m = m.status from h.symm]

theorem iterCheck_of_eq (n : Nat) (m : Mandate) (h : computedStatus m = m.status) :
    iterCheck n m = (m, 0) := by
  induction n with
  | zero => rfl
  | succ k ih => simp [iterCheck, checkMandate_of_eq m h, ih]

theorem limitBreached_iff (cur : ℚ) (lim : Option ℚ) :
    limitBreached cur lim = true ↔ limitSetAndBreached cur lim := by
  cases lim with
  | none => simp [limitBreached, pyTruthy, limitSetAndBreached]
  | some l =>
    simp [limitBreached, pyTruthy, limitSetAndBreached, pyabs_eq_abs,
      Bool.and_eq_true, decide_eq_true_eq]

theorem limitBreached_eq_false (cur : ℚ) (lim : Option ℚ)
    (h : ¬ limitSetAndBreached cur lim) : limitBreached cur lim = false := by
  cases hb : limitBreached cur lim
  · rfl
  · exact absurd ((limitBreached_iff cur lim).mp hb) h

end RiskEngine

/-- C3: the mandate monitor is edge-triggered.  Re-evaluating a mandate whose
computed status equals the persisted status issues no status write and no
alert; `n` consecutive re-evaluations of a mandate with unchanged value and
limits emit at most one alert in total; and a transition back to `OK`
persists the new status (a write happens) but emits no alert. -/
theorem mandate_alerts_edge_triggered (m : RiskEngine.Mandate) (n : Nat) :
    (RiskEngine.computedStatus m = m.status →
       RiskEngine.checkMandate m = ⟨m, none, false⟩) ∧
    (RiskEngine.iterCheck n m).2 ≤ 1 ∧
    (RiskEngine.computedStatus m = "OK" → m.status ≠ "OK" →
       RiskEngine.checkMandate m = ⟨{ m with status := "OK" }, none, true⟩) := by
  refine ⟨RiskEngine.checkMandate_of_eq m, ?_, ?_⟩
  · cases n with
    | zero => simp [RiskEngine.iterCheck]
    | succ k =>
      have hfix : RiskEngine.computedStatus (RiskEngine.checkMandate m).mandate =
          (RiskEngine.checkMandate m).mandate.status := by
        rw [RiskEngine.checkMandate_mandate m]
        rfl
      have h0 := RiskEngine.iterCheck_of_eq k (RiskEngine.checkMandate m).mandate hfix
      simp only [RiskEngine.iterCheck, h0]
      split <;> simp
  · intro hOK hne
    have h2 : (RiskEngine.newStatus (Athena.pyFloatOrZero m.current_value)
        (Athena.pyFloatOrNone m.hard_limit)
        (Athena.pyFloatOrNone m.soft_limit)).2 = none :=
      RiskEngine.newStatus_snd_of_ok _ _ _ hOK
    have h1 : (RiskEngine.newStatus (Athena.pyFloatOrZero m.current_value)
        (Athena.pyFloatOrNone m.hard_limit)
        (Athena.pyFloatOrNone m.soft_limit)).1 = "OK" := hOK
    unfold RiskEngine.checkMandate
    dsimp only
    rw [h1, h2]
    rw [if_pos hne]

/-- Witness for C3 at concrete mandates: an already-`BREACH` mandate whose
value still breaches (no write, no alert, and five re-evaluations emit at
most one alert), and a `WARNING` mandate whose value dropped back (status
persisted to `OK`, no alert). -/
theorem mandate_alerts_edge_triggered_witness :
    RiskEngine.checkMandate Examples.mSame = ⟨Examples.mSame, none, false⟩ ∧
    (RiskEngine.iterCheck 5 Examples.mSame).2 ≤ 1 ∧
    RiskEngine.checkMandate Examples.mDrop =
      ⟨{ Examples.mDrop with status := "OK" }, none, true⟩ := by
  obtain ⟨h1, h2, _⟩ := mandate_alerts_edge_triggered Examples.mSame 5
  obtain ⟨_, _, h3⟩ := mandate_alerts_edge_triggered Examples.mDrop 0
  exact ⟨h1 (by decide), h2, h3 (by decide) (by decide)⟩

/-- C4: the evaluated status is a pure function of the absolute current value
against the two limits, in fixed priority: a set-and-breached hard limit
yields `BREACH` with a `CRITICAL` alert severity; otherwise a
set-and-breached soft limit yields `WARNING` with severity `WARNING`;
otherwise the status is `OK` with no alert severity. -/
theorem mandate_status_pure_priority (cur : ℚ) (hard soft : Option ℚ) :
    (RiskEngine.limitSetAndBreached cur hard →
       RiskEngine.newStatus cur hard soft = ("BREACH", some "CRITICAL")) ∧
    (¬ RiskEngine.limitSetAndBreached cur hard →
       RiskEngine.limitSetAndBreached cur soft →
       RiskEngine.newStatus cur hard soft = ("WARNING", some "WARNING")) ∧
    (¬ RiskEngine.limitSetAndBreached cur hard →
       ¬ RiskEngine.limitSetAndBreached cur soft →
       RiskEngine.newStatus cur hard soft = ("OK", none)) := by
  refine ⟨?_, ?_, ?_⟩
  · intro h
    unfold RiskEngine.newStatus
    rw [if_pos ((RiskEngine.limitBreached_iff cur hard).mpr h)]
  · intro hn hs
    unfold RiskEngine.newStatus
    rw [RiskEngine.limitBreached_eq_false cur hard hn]
    simp only [Bool.false_eq_true, if_false]
    rw [if_pos ((RiskEngine.limitBreached_iff cur soft).mpr hs)]
  · intro hn hs
    unfold RiskEngine.newStatus
    rw [RiskEngine.limitBreached_eq_false cur hard hn,
      RiskEngine.limitBreached_eq_false cur soft hs]
    simp

/-- Witness for C4 at a mandate with soft limit 100 and hard limit 150:
current values 160, 110 and 90 give `BREACH`/`CRITICAL`,
`WARNING`/`WARNING` and `OK`/no severity respectively. -/
theorem mandate_status_pure_priority_witness :
    RiskEngine.newStatus 160 (some 150) (some 100) = ("BREACH", some "CRITICAL") ∧
    RiskEngine.newStatus 110 (some 150) (some 100) = ("WARNING", some "WARNING") ∧
    RiskEngine.newStatus 90 (some 150) (some 100) = ("OK", none) :=
  ⟨(mandate_status_pure_priority 160 (some 150) (some 100)).1 (by decide),
   (mandate_status_pure_priority 110 (some 150) (some 100)).2.1 (by decide) (by decide),
   (mandate_status_pure_priority 90 (some 150) (some 100)).2.2 (by decide) (by decide)⟩

/-- C10: a stored limit of exactly 0 is parsed to `None` and skipped by the
evaluation, so it behaves exactly like an unset limit, and a mandate with
hard limit 0 can never evaluate to `BREACH` through that limit; a `NULL`
current value is evaluated as the value 0. -/
theorem zero_limit_treated_as_unset (cur soft hard : Option ℚ) :
    RiskEngine.mandate_eval cur (some 0) soft = RiskEngine.mandate_eval cur none soft ∧
    RiskEngine.mandate_eval cur hard (some 0) = RiskEngine.mandate_eval cur hard none ∧
    (RiskEngine.mandate_eval cur (some 0) soft).1 ≠ "BREACH" ∧
    Athena.pyFloatOrZero none = Athena.pyFloatOrZero (some 0) := by
  refine ⟨rfl, rfl, ?_, rfl⟩
  show (RiskEngine.newStatus (Athena.pyFloatOrZero cur) none
      (Athena.pyFloatOrNone soft)).1 ≠ "BREACH"
  unfold RiskEngine.newStatus
  rw [show RiskEngine.limitBreached (Athena.pyFloatOrZero cur) none = false from rfl]
  simp only [Bool.false_eq_true, if_false]
  split <;> decide

/-- C5 counterexample: with the halt flag set, a request from a `VIEWER` is
rejected with `Forbidden`, not `HaltActive` — the capability check on line
181 runs before the kill-switch check on line 188 — so "rejects every new
order request with HaltActive" is false as stated (though no order is
created). -/
theorem submit_halt_viewer_counterexample :
    ExecutionGateway.send_order "VIEWER" (some true) (some 100) Examples.reqBuy 1 []
      = (Except.error ExecutionGateway.SendError.Forbidden, []) ∧
    ExecutionGateway.SendError.Forbidden ≠ ExecutionGateway.SendError.HaltActive :=
  ⟨rfl, by decide⟩

/-- C5 (amended): while the halt flag is set every request is rejected with
some error and no order is created; the error is `HaltActive` whenever the
caller is not a `VIEWER`, while a `VIEWER` is always rejected with
`Forbidden` (the capability check runs first); a non-viewer request with no
halt and no reference price is rejected with `UnknownSymbol`; in every
rejection case the orders table is unchanged. -/
theorem submit_rejections (role : String) (ks : Option Bool) (refPrice : Option ℚ)
    (req : ExecutionGateway.OrderCreate) (nid : Nat)
    (orders : List ExecutionGateway.Order) :
    (ks = some true →
       (ExecutionGateway.send_order role ks refPrice req nid orders).2 = orders ∧
       ∃ e, (ExecutionGateway.send_order role ks refPrice req nid orders).1 =
         Except.error e) ∧
    (ks = some true → role ≠ "VIEWER" →
       ExecutionGateway.send_order role ks refPrice req nid orders =
         (Except.error ExecutionGateway.SendError.HaltActive, orders)) ∧
    (role = "VIEWER" →
       ExecutionGateway.send_order role ks refPrice req nid orders =
         (Except.error ExecutionGateway.SendError.Forbidden, orders)) ∧
    (role ≠ "VIEWER" → ks ≠ some true → refPrice = none →
       ExecutionGateway.send_order role ks refPrice req nid orders =
         (Except.error ExecutionGateway.SendError.UnknownSymbol, orders)) := by
  have hks : ∀ h : ks ≠ some true, ks.getD false = false := by
    intro h
    cases ks with
    | none => rfl
    | some b => cases b with
      | false => rfl
      | true => exact absurd rfl h
  refine ⟨?_, ?_, ?_, ?_⟩
  · intro hk
    by_cases hv : role = "VIEWER"
    · unfold ExecutionGateway.send_order
      rw [if_pos hv]
      exact ⟨rfl, ⟨ExecutionGateway.SendError.Forbidden, rfl⟩⟩
    · unfold ExecutionGateway.send_order
      rw [if_neg hv, hk]
      exact ⟨rfl, ⟨ExecutionGateway.SendError.HaltActive, rfl⟩⟩
  · intro hk hv
    unfold ExecutionGateway.send_order
    rw [if_neg hv, hk]
    rfl
  · intro hv
    unfold ExecutionGateway.send_order
    rw [if_pos hv]
  · intro hv hk hp
    unfold ExecutionGateway.send_order
    rw [if_neg hv, hks hk, hp]
    rfl

/-- Witness for C5 (amended): concrete rejections — an `ADMIN` while halted
gets `HaltActive`, a `VIEWER` gets `Forbidden`, and an `ADMIN` asking for a
symbol with no reference price gets `UnknownSymbol`; the orders table stays
empty each time. -/
theorem submit_rejections_witness :
    ExecutionGateway.send_order "ADMIN" (some true) (some 100) Examples.reqBuy 1 []
      = (Except.error ExecutionGateway.SendError.HaltActive, []) ∧
    ExecutionGateway.send_order "VIEWER" none (some 100) Examples.reqBuy 1 []
      = (Except.error ExecutionGateway.SendError.Forbidden, []) ∧
    ExecutionGateway.send_order "ADMIN" (some false) none Examples.reqBuy 1 []
      = (Except.error ExecutionGateway.SendError.UnknownSymbol, []) :=
  ⟨(submit_rejections "ADMIN" (some true) (some 100) Examples.reqBuy 1 []).2.1
      rfl (by decide),
   (submit_rejections "VIEWER" none (some 100) Examples.reqBuy 1 []).2.2.1 rfl,
   (submit_rejections "ADMIN" (some false) none Examples.reqBuy 1 []).2.2.2
      (by decide) (by decide) rfl⟩

/-- C7 counterexample: cancelling an order that is already `CANCELLED`
returns the 400 error `Cannot cancel order with status: CANCELLED`
(`Except.error`), not a distinct non-error `AlreadyTerminal` signal; the
table is left unchanged. -/
theorem cancel_terminal_counterexample :
    ExecutionGateway.cancel_order "ADMIN" [Examples.oDone] 7
      = (Except.error (ExecutionGateway.CancelError.InvalidStatus "CANCELLED"),
         [Examples.oDone]) := rfl

/-- C7 (amended): cancelling an order whose status is terminal (`FILLED`,
`CANCELLED` or `REJECTED`) is rejected with the 400 `InvalidStatus` error
naming the current status — an error response, not a distinct
`AlreadyTerminal` success signal — and leaves the orders table unchanged. -/
theorem cancel_already_terminal (role : String)
    (orders : List ExecutionGateway.Order) (oid : Nat)
    (o : ExecutionGateway.Order)
    (hrole : role ≠ "VIEWER")
    (hfind : orders.find? (fun o => o.id == oid) = some o)
    (hterm : o.status = "FILLED" ∨ o.status = "CANCELLED" ∨ o.status = "REJECTED") :
    ExecutionGateway.cancel_order role orders oid =
      (Except.error (ExecutionGateway.CancelError.InvalidStatus o.status), orders) := by
  unfold ExecutionGateway.cancel_order
  rw [if_neg hrole, hfind]
  dsimp only
  rw [if_pos hterm]

/-- Witness for C7 (amended) at a two-row table: cancelling the already
cancelled order returns the `InvalidStatus` error and the unchanged table. -/
theorem cancel_already_terminal_witness :
    ExecutionGateway.cancel_order "ADMIN" [Examples.oHalfFilled, Examples.oDone] 7
      = (Except.error (ExecutionGateway.CancelError.InvalidStatus "CANCELLED"),
         [Examples.oHalfFilled, Examples.oDone]) :=
  cancel_already_terminal "ADMIN" [Examples.oHalfFilled, Examples.oDone] 7
    Examples.oDone (by decide) (by decide) (Or.inr (Or.inl rfl))

/-- C8: order/fill invariants.  (1) An order created by `send_order` with a
positive requested quantity satisfies `0 ≤ filled ≤ requested` and
`status = FILLED ↔ filled = requested`.  (2) Applying a simulated fill whose
sampled quantity lies in the support of `random.uniform(0, remaining)`
preserves the invariant, never pushes the filled quantity past the requested
quantity (the applied fill is bounded by the remaining unfilled amount), sets
the status to `FILLED` exactly when filled reaches requested and to `PARTIAL`
otherwise, and is a no-op when the sampled quantity is not positive.
(3) Cancelling a not-yet-`FILLED` order preserves the invariant. -/
theorem order_fill_invariant :
    (∀ (role : String) (ks : Option Bool) (rp : Option ℚ)
        (req : ExecutionGateway.OrderCreate) (nid : Nat)
        (orders : List ExecutionGateway.Order) (o : ExecutionGateway.Order),
        (ExecutionGateway.send_order role ks rp req nid orders).1 = Except.ok o →
        0 < req.quantity → ExecutionGateway.OrderInv o) ∧
    (∀ (o : ExecutionGateway.Order) (q p : ℚ),
        ExecutionGateway.OrderInv o →
        ExecutionGateway.uniformSample 0 (o.quantity - o.filled_quantity) q →
        ExecutionGateway.OrderInv (ExecutionGateway.simulate_order_execution_step o q p).1 ∧
        (ExecutionGateway.simulate_order_execution_step o q p).1.filled_quantity ≤
          o.quantity ∧
        (0 < q → (ExecutionGateway.simulate_order_execution_step o q p).1.status =
          (if o.filled_quantity + q = o.quantity then "FILLED" else "PARTIAL")) ∧
        (¬ 0 < q → ExecutionGateway.simulate_order_execution_step o q p = (o, none))) ∧
    (∀ o : ExecutionGateway.Order, ExecutionGateway.OrderInv o →
        o.status ≠ "FILLED" →
        ExecutionGateway.OrderInv { o with status := "CANCELLED" }) := by
  refine ⟨?_, ?_, ?_⟩
  · intro role ks rp req nid orders o hok hq
    unfold ExecutionGateway.send_order at hok
    split at hok
    · simp at hok
    · split at hok
      · simp at hok
      · split at hok
        · simp at hok
        · dsimp only at hok
          injection hok with h
          subst h
          refine ⟨le_refl 0, hq.le, ?_⟩
          show ("PENDING" : String) = "FILLED" ↔ (0 : ℚ) = req.quantity
          exact iff_of_false (by decide) hq.ne
  · intro o q p hInv hs
    obtain ⟨hq0, hqr⟩ := hs
    obtain ⟨hf0, hfq, hiff⟩ := hInv
    unfold ExecutionGateway.simulate_order_execution_step
    by_cases hq : 0 < q
    · rw [if_pos hq]
      dsimp only
      have hle : o.filled_quantity + q ≤ o.quantity := by linarith
      have hcond : (o.filled_quantity + q ≥ o.quantity) ↔
          (o.filled_quantity + q = o.quantity) :=
        ⟨fun h => le_antisymm hle h, fun h => h.ge⟩
      refine ⟨⟨show (0 : ℚ) ≤ o.filled_quantity + q by linarith, hle, ?_⟩, hle,
        fun _ => ?_, fun hn => absurd hq hn⟩
      · by_cases he : o.filled_quantity + q = o.quantity
        · rw [if_pos (hcond.mpr he)]
          exact iff_of_true rfl he
        · rw [if_neg (fun h => he (hcond.mp h))]
          show ("PARTIAL" : String) = "FILLED" ↔ o.filled_quantity + q = o.quantity
          exact iff_of_false (by decide) he
      · by_cases he : o.filled_quantity + q = o.quantity
        · rw [if_pos (hcond.mpr he), if_pos he]
        · rw [if_neg (fun h => he (hcond.mp h)), if_neg he]
    · rw [if_neg hq]
      exact ⟨⟨hf0, hfq, hiff⟩, hfq, fun h => absurd h hq, fun _ => rfl⟩
  · intro o hInv hne
    refine ⟨hInv.1, hInv.2.1, ?_⟩
    show ("CANCELLED" : String) = "FILLED" ↔ o.filled_quantity = o.quantity
    exact iff_of_false (by decide) (fun heq => hne (hInv.2.2.mpr heq))

section

attribute [local semireducible] Rat.add Rat.sub Rat.mul

/-- Witness for C8 at the spec's scenario: the freshly created 100-share
order satisfies the invariant; filling the 60/100 partially-filled order
with the remaining 40 shares keeps the invariant and keeps
filled ≤ requested; cancelling the partially-filled order keeps the
invariant. -/
theorem order_fill_invariant_witness :
    ExecutionGateway.OrderInv Examples.oPending ∧
    ExecutionGateway.OrderInv
      (ExecutionGateway.simulate_order_execution_step Examples.oHalfFilled 40 51).1 ∧
    (ExecutionGateway.simulate_order_execution_step Examples.oHalfFilled 40 51).1.filled_quantity ≤
      Examples.oHalfFilled.quantity ∧
    ExecutionGateway.OrderInv { Examples.oHalfFilled with status := "CANCELLED" } := by
  have h1 := order_fill_invariant.1 "ADMIN" (some false) (some 50) Examples.reqBuy 1 []
    Examples.oPending rfl (by decide)
  have h2 := order_fill_invariant.2.1 Examples.oHalfFilled 40 51 (by decide)
    ⟨by decide, by decide⟩
  have h3 := order_fill_invariant.2.2 Examples.oHalfFilled (by decide) (by decide)
  exact ⟨h1, h2.1, h2.2.1, h3⟩

end

namespace ExecutionGateway

theorem find?_congr_pred {p q : Position → Bool} (h : ∀ x, p x = q x) :
    ∀ l : List Position, l.find? p = l.find? q := by
  intro l
  induction l with
  | nil => rfl
  | cons a t ih =>
    cases ha : q a with
    | true => rw [List.find?_cons_of_pos t (by rw [h a]; exact ha),
        List.find?_cons_of_pos t ha]
    | false => rw [List.find?_cons_of_neg t (by rw [h a, ha]; decide),
        List.find?_cons_of_neg t (by rw [ha]; decide), ih]

theorem keyMatch_upd (sid : Option Nat) (sym : String) (pid : Nat) (d pr : ℚ)
    (x : Position) :
    keyMatch sid sym (if x.id == pid then
      { x with quantity := x.quantity + d, current_price := pr } else x) =
    keyMatch sid sym x := by
  cases h : x.id == pid <;> simp [h, keyMatch]

theorem upd_id (pid : Nat) (d pr : ℚ) (x : Position) :
    (if x.id == pid then
      { x with quantity := x.quantity + d, current_price := pr } else x).id = x.id := by
  cases h : x.id == pid <;> simp [h]

theorem ids_distinct {ps : List Position} (h : IdsNodup ps) {a b : Position}
    (ha : a ∈ ps) (hb : b ∈ ps) (hne : a ≠ b) : a.id ≠ b.id :=
  List.Pairwise.forall (fun _ _ hxy => hxy.symm) h ha hb hne

theorem id_le_maxId {ps : List Position} {x : Position} (hx : x ∈ ps) :
    x.id ≤ maxId ps := by
  induction ps with
  | nil => cases hx
  | cons a t ih =>
    rcases List.mem_cons.mp hx with h | h
    · subst h
      exact le_max_left _ _
    · exact le_trans (ih h) (le_max_right _ _)

theorem id_ne_freshId {ps : List Position} {x : Position} (hx : x ∈ ps) :
    x.id ≠ freshId ps := by
  have := id_le_maxId hx
  unfold freshId
  omega

theorem IdsNodup_apply_fill (ps : List Position) (f : FillEvent)
    (h : IdsNodup ps) : IdsNodup (apply_fill ps f) := by
  unfold apply_fill update_position
  dsimp only
  cases hf : ps.find? (keyMatch f.strategy_id f.symbol) with
  | some p =>
    refine List.Pairwise.map _ ?_ h
    intro a b hab
    rw [upd_id, upd_id]
    exact hab
  | none =>
    rw [IdsNodup, List.pairwise_append]
    refine ⟨h, List.pairwise_singleton _ _, ?_⟩
    intro a ha b hb
    rw [List.mem_singleton.mp hb]
    exact id_ne_freshId ha

theorem find?_keyMatch_map_upd (sid : Option Nat) (sym : String) (pid : Nat)
    (d pr : ℚ) (ps : List Position) :
    (ps.map (fun x => if x.id == pid then
        { x with quantity := x.quantity + d, current_price := pr } else x)).find?
      (keyMatch sid sym) =
    (ps.find? (keyMatch sid sym)).map (fun x => if x.id == pid then
        { x with quantity := x.quantity + d, current_price := pr } else x) := by
  induction ps with
  | nil => rfl
  | cons a t ih =>
    cases ha : keyMatch sid sym a with
    | true =>
      rw [List.map_cons, List.find?_cons_of_pos _ (by rw [keyMatch_upd]; exact ha),
        List.find?_cons_of_pos _ ha, Option.map_some']
    | false =>
      rw [List.map_cons, List.find?_cons_of_neg _ (by rw [keyMatch_upd, ha]; decide),
        List.find?_cons_of_neg _ (by rw [ha]; decide), ih]

theorem sqlEq_eq {a b : Option Nat} (h : sqlEq a b = true) : a = b := by
  cases a <;> cases b <;> simp_all [sqlEq]

theorem sqlEq_ne {a b : Option Nat} (h : a ≠ b) : sqlEq a b = false := by
  cases hv : sqlEq a b
  · rfl
  · exact absurd (sqlEq_eq hv) h

theorem keyMatch_none (sym : String) (p : Position) :
    keyMatch none sym p = false := by
  cases h : p.strategy_id <;> simp [keyMatch, sqlEq, h]

theorem find?_keyMatch_none (sym : String) (ps : List Position) :
    ps.find? (keyMatch none sym) = none := by
  induction ps with
  | nil => rfl
  | cons a t ih =>
    rw [List.find?_cons_of_neg _ (by simp [keyMatch_none])]
    exact ih

theorem qtyOf_apply_fill (ps : List Position) (f : FillEvent) (sid : Option Nat)
    (sym : String) (h : IdsNodup ps) (hs : sid ≠ none) :
    qtyOf (apply_fill ps f) sid sym =
      qtyOf ps sid sym +
        (if f.strategy_id = sid ∧ f.symbol = sym then signedQty f else 0) := by
  unfold apply_fill update_position
  dsimp only
  cases hf : ps.find? (keyMatch f.strategy_id f.symbol) with
  | some p =>
    unfold qtyOf
    rw [find?_keyMatch_map_upd]
    cases hq : ps.find? (keyMatch sid sym) with
    | none =>
      have hnk : ¬(f.strategy_id = sid ∧ f.symbol = sym) := by
        rintro ⟨h1, h2⟩
        rw [← h1, ← h2, hf] at hq
        exact Option.noConfusion hq
      rw [if_neg hnk]
      simp
    | some r =>
      by_cases hkey : f.strategy_id = sid ∧ f.symbol = sym
      · obtain ⟨h1, h2⟩ := hkey
        subst h1
        subst h2
        rw [hf] at hq
        injection hq with hq
        subst hq
        have hc : f.strategy_id = f.strategy_id ∧ f.symbol = f.symbol := ⟨rfl, rfl⟩
        rw [if_pos hc]
        simp only [Option.map_some']
        rw [if_pos (beq_self_eq_true p.id)]
        rfl
      · have hrp : r ≠ p := by
          intro hEq
          subst hEq
          have h1 := List.find?_some hq
          have h2 := List.find?_some hf
          simp only [keyMatch, Bool.and_eq_true, beq_iff_eq] at h1 h2
          exact hkey ⟨(sqlEq_eq h2.2).symm.trans (sqlEq_eq h1.2),
            h2.1.symm.trans h1.1⟩
        have hid : r.id ≠ p.id :=
          ids_distinct h (List.mem_of_find?_eq_some hq) (List.mem_of_find?_eq_some hf) hrp
        have hcond : ¬((r.id == p.id) = true) := by
          simp [beq_eq_false_iff_ne.mpr hid]
        rw [if_neg hkey]
        simp only [Option.map_some']
        rw [if_neg hcond, add_zero]
  | none =>
    unfold qtyOf
    rw [List.find?_append]
    by_cases hkey : f.strategy_id = sid ∧ f.symbol = sym
    · obtain ⟨h1, h2⟩ := hkey
      subst h1
      subst h2
      rw [hf]
      have hc : f.strategy_id = f.strategy_id ∧ f.symbol = f.symbol := ⟨rfl, rfl⟩
      rw [if_pos hc]
      obtain ⟨y, hy⟩ : ∃ y, f.strategy_id = some y := by
        cases hv : f.strategy_id with
        | none => exact absurd hv hs
        | some y => exact ⟨y, rfl⟩
      have hk : keyMatch f.strategy_id f.symbol
          { id := freshId ps, strategy_id := f.strategy_id, symbol := f.symbol,
            quantity := if f.side = "BUY" then f.quantity else -f.quantity,
            average_entry_price := f.price, current_price := f.price } = true := by
        simp [keyMatch, hy, sqlEq]
      rw [List.find?_cons_of_pos _ hk]
      simp only [Option.none_or]
      rw [zero_add]
      rfl
    · have hnew : keyMatch sid sym
          { id := freshId ps, strategy_id := f.strategy_id, symbol := f.symbol,
            quantity := if f.side = "BUY" then f.quantity else -f.quantity,
            average_entry_price := f.price, current_price := f.price } = false := by
        simp only [keyMatch]
        rw [Bool.and_eq_false_iff]
        rcases not_and_or.mp hkey with hx | hx
        · right
          exact sqlEq_ne hx
        · left
          exact beq_eq_false_iff_ne.mpr hx
      rw [if_neg hkey]
      cases hq : ps.find? (keyMatch sid sym) with
      | none => simp [hnew]
      | some r => simp

theorem signedSum_cons (f : FillEvent) (l : List FillEvent) :
    signedSum (f :: l) = signedQty f + signedSum l := by
  simp [signedSum]

theorem qtyOf_apply_fills (sid : Option Nat) (sym : String) (hs : sid ≠ none) :
    ∀ (fs : List FillEvent) (ps : List Position), IdsNodup ps →
    qtyOf (apply_fills ps fs) sid sym =
      qtyOf ps sid sym +
        signedSum (fs.filter (fun x => x.strategy_id == sid && x.symbol == sym)) := by
  intro fs
  induction fs with
  | nil =>
    intro ps _
    simp [apply_fills, signedSum]
  | cons f t ih =>
    intro ps h
    have hfold : apply_fills ps (f :: t) = apply_fills (apply_fill ps f) t := rfl
    rw [hfold, ih (apply_fill ps f) (IdsNodup_apply_fill ps f h),
      qtyOf_apply_fill ps f sid sym h hs]
    by_cases hkey : f.strategy_id = sid ∧ f.symbol = sym
    · have hb : (f.strategy_id == sid && f.symbol == sym) = true := by
        simp [hkey.1, hkey.2]
      rw [List.filter_cons, if_pos hb, if_pos hkey, signedSum_cons]
      ring
    · have hb : ¬((f.strategy_id == sid && f.symbol == sym) = true) := by
        simpa [Bool.and_eq_true, beq_iff_eq] using hkey
      rw [List.filter_cons, if_neg hb, if_neg hkey]
      ring

end ExecutionGateway

section

attribute [local semireducible] Rat.add Rat.sub Rat.mul

/-- C9 counterexample.  (a) Applying a BUY fill of 1 share at price 200 to an
existing 1-share position entered at 100 leaves the stored average entry
price at 100 (only quantity and current price are written): the
weighted-average entry price, (1·100 + 1·200)/(1+1) = 150, is not
recomputed.  (b) For an order with no owning strategy (`NULL`
`strategy_id`), the lookup `strategy_id = $2` never matches under SQL `NULL`
semantics, so each of two identical BUY fills inserts a fresh position row:
the table ends with two rows and no (strategy, symbol) position holds their
signed sum 2 — the signed-sum property fails for strategy-less orders. -/
theorem position_fill_counterexample :
    ExecutionGateway.entryOf
        (ExecutionGateway.apply_fill [Examples.posOne] Examples.fillBuy)
        (some 1) "AAPL" = some 100 ∧
    (100 : ℚ) ≠ (1 * 100 + 1 * 200) / (1 + 1) ∧
    ExecutionGateway.qtyOf
        (ExecutionGateway.apply_fills [] [Examples.fillNull, Examples.fillNull])
        none "AAPL" = 0 ∧
    (ExecutionGateway.apply_fills [] [Examples.fillNull, Examples.fillNull]).length = 2 ∧
    ExecutionGateway.signedSum [Examples.fillNull, Examples.fillNull] = 2 := by
  refine ⟨by decide, by norm_num, by decide, by decide, by decide⟩

end

/-- C9 (amended): a fill whose order has a non-`NULL` owning strategy updates
the (strategy, symbol) position by the signed fill quantity (+qty for BUY,
−qty for SELL), creating the position lazily on first fill with entry price
equal to the fill price, so for every non-`NULL` strategy key the position
quantity equals the signed sum of the fills applied to it; on subsequent
fills the stored average entry price is left unchanged (only quantity and
current price are rewritten) — it is not re-averaged; and a fill whose order
has `NULL` `strategy_id` never matches an existing row (SQL `NULL`
equality), so every such fill inserts a fresh position row. -/
theorem position_signed_sum (ps : List ExecutionGateway.Position)
    (fs : List ExecutionGateway.FillEvent) (f : ExecutionGateway.FillEvent)
    (sid : Option Nat) (sym : String) (p : ExecutionGateway.Position)
    (h : ExecutionGateway.IdsNodup ps) :
    (sid ≠ none →
       ExecutionGateway.qtyOf (ExecutionGateway.apply_fills ps fs) sid sym =
         ExecutionGateway.qtyOf ps sid sym +
           ExecutionGateway.signedSum
             (fs.filter (fun x => x.strategy_id == sid && x.symbol == sym))) ∧
    (ps.find? (ExecutionGateway.keyMatch f.strategy_id f.symbol) = some p →
       ExecutionGateway.entryOf (ExecutionGateway.apply_fill ps f)
           f.strategy_id f.symbol = some p.average_entry_price) ∧
    (ps.find? (ExecutionGateway.keyMatch f.strategy_id f.symbol) = none →
       ExecutionGateway.apply_fill ps f = ps ++
         [{ id := ExecutionGateway.freshId ps, strategy_id := f.strategy_id,
            symbol := f.symbol, quantity := ExecutionGateway.signedQty f,
            average_entry_price := f.price, current_price := f.price }]) ∧
    (f.strategy_id = none →
       ExecutionGateway.apply_fill ps f = ps ++
         [{ id := ExecutionGateway.freshId ps, strategy_id := none,
            symbol := f.symbol, quantity := ExecutionGateway.signedQty f,
            average_entry_price := f.price, current_price := f.price }]) := by
  refine ⟨fun hs => ExecutionGateway.qtyOf_apply_fills sid sym hs fs ps h, ?_, ?_, ?_⟩
  · intro hfind
    unfold ExecutionGateway.apply_fill ExecutionGateway.update_position
    dsimp only
    rw [hfind]
    unfold ExecutionGateway.entryOf
    rw [ExecutionGateway.find?_keyMatch_map_upd, hfind]
    simp only [Option.map_some']
    rw [if_pos (beq_self_eq_true p.id)]
  · intro hnone
    unfold ExecutionGateway.apply_fill ExecutionGateway.update_position
    dsimp only
    rw [hnone]
    rfl
  · intro hfn
    unfold ExecutionGateway.apply_fill ExecutionGateway.update_position
    dsimp only
    rw [hfn, ExecutionGateway.find?_keyMatch_none]
    rfl

/-- Witness for C9 (amended) at concrete tables: folding the single
strategy-1 BUY fill over the one-position table satisfies the signed-sum
equation for the non-`NULL` key, the update path keeps the stored entry
price of the existing position, and the strategy-less BUY fill appends a
fresh row instead of touching the existing position. -/
theorem position_signed_sum_witness :
    (ExecutionGateway.qtyOf
        (ExecutionGateway.apply_fills [Examples.posOne] [Examples.fillBuy])
        (some 1) "AAPL" =
      ExecutionGateway.qtyOf [Examples.posOne] (some 1) "AAPL" +
        ExecutionGateway.signedSum
          ([Examples.fillBuy].filter
            (fun x => x.strategy_id == some 1 && x.symbol == "AAPL"))) ∧
    ExecutionGateway.entryOf
        (ExecutionGateway.apply_fill [Examples.posOne] Examples.fillBuy)
        (some 1) "AAPL" = some 100 ∧
    ExecutionGateway.apply_fill [Examples.posOne] Examples.fillNull =
      [Examples.posOne, ⟨2, none, "AAPL", 1, 100, 100⟩] := by
  have hA := position_signed_sum [Examples.posOne] [Examples.fillBuy]
    Examples.fillBuy (some 1) "AAPL" Examples.posOne
    (by simp [ExecutionGateway.IdsNodup])
  have hB := position_signed_sum [Examples.posOne] [] Examples.fillNull
    (some 1) "AAPL" Examples.posOne (by simp [ExecutionGateway.IdsNodup])
  exact ⟨hA.1 (by decide), hA.2.1 (by decide), hB.2.2.2 rfl⟩

/-- C1: evidence for the code bug — executing the confirmed kill switch on a
state holding a `PARTIAL` order succeeds, yet the `PARTIAL` order survives
untouched (the `UPDATE` on lines 346-352 only covers `PENDING` and `OPEN`),
so a non-terminal order remains after the kill switch completes; `PARTIAL`
is one of the repository's own open statuses. -/
theorem kill_switch_leaves_partial_order :
    (RiskEngine.execute_kill_switch true none Examples.stEx).1 =
      RiskEngine.KSOutcome.ok 1 1 ∧
    (RiskEngine.execute_kill_switch true none Examples.stEx).2.orders =
      [{ Examples.oPending with status := "CANCELLED" }, Examples.oHalfFilled] ∧
    Examples.oHalfFilled.status = "PARTIAL" ∧
    ExecutionGateway.isOpenStatus Examples.oHalfFilled.status = true := by
  decide

/-- C2: evidence for the code bug — injecting a failure right after the
order-cancellation statement (the first statement of the `try` block) leaves
the operation reported as failed and the halt flag unset, but the `PENDING`
order has already been irrevocably cancelled, because each `db.execute`
commits on its own and nothing rolls it back: the kill switch is not
all-or-nothing. -/
theorem kill_switch_not_atomic :
    (RiskEngine.execute_kill_switch true (some 1) Examples.stEx).1 =
      RiskEngine.KSOutcome.failed ∧
    (RiskEngine.execute_kill_switch true (some 1) Examples.stEx).2.kill_switch_active ≠
      some true ∧
    (RiskEngine.execute_kill_switch true (some 1) Examples.stEx).2.orders =
      [{ Examples.oPending with status := "CANCELLED" }, Examples.oHalfFilled] ∧
    (RiskEngine.execute_kill_switch true (some 1) Examples.stEx).2.orders ≠
      Examples.stEx.orders := by
  decide

/-- C6: invoking the kill switch without confirmation is rejected with the
`NotConfirmed` 400 before any read or write, for every database state and
every failure-injection point: the returned state is exactly the input
state, so no order, position, strategy, system-state row, audit row, alert
or broadcast is touched. -/
theorem kill_switch_not_confirmed (st : RiskEngine.SystemState)
    (failAt : Option Nat) :
    RiskEngine.execute_kill_switch false failAt st =
      (RiskEngine.KSOutcome.notConfirmed, st) := rfl
